import Mathlib

/-!
Shallow embedding of `webtoonsaver.py` (class `WebtoonSaver` and the
`run_webtoonsaver` driver).  Pure string and arithmetic helpers are
translated directly; effectful steps (HTTP requests, filesystem access,
PIL image decoding) are embedded by passing the outcome of each external
call in explicitly and recording the effects (network calls, file writes,
scratch-directory state) that the Python code would perform.  A Python
exception that the code does not catch is an `Except.error` value.
-/

/-- Test whether the characters of `needle` occur at the start of `hay`. -/
def charsStartWith : List Char → List Char → Bool
  | [], _ => true
  | _ :: _, [] => false
  | a :: as, b :: bs => a == b && charsStartWith as bs

/-- Test whether the characters of `needle` occur contiguously in `hay`. -/
def charsContain (needle : List Char) : List Char → Bool
  | [] => needle.isEmpty
  | c :: rest => charsStartWith needle (c :: rest) || charsContain needle rest

/-- The Python substring test `needle in hay`. -/
def containsSubstr (needle hay : String) : Bool :=
  charsContain needle.toList hay.toList

/-- Python `int(s)` on a run of ASCII digits (the only shape the program
ever feeds it: chapter ids are produced by the digit-run regex). -/
def strToNat (s : String) : Nat :=
  s.toList.foldl (fun acc c => acc * 10 + (c.toNat - 48)) 0

/-- The chapter id as the integer Python compares and subtracts with. -/
def strToInt (s : String) : Int := (strToNat s : Int)

/-- Python `re.sub` of all whitespace with the empty string (line 214). -/
def stripWS (s : String) : String :=
  String.mk (s.toList.filter (fun c => !c.isWhitespace))

/-- Split a character list at every occurrence of `sep`, keeping empty
fields, as Python `s.split(sep)` does. -/
def splitChar (sep : Char) : List Char → List (List Char)
  | [] => [[]]
  | c :: rest =>
    let r := splitChar sep rest
    if c == sep then [] :: r
    else
      match r with
      | [] => [[c]]
      | g :: gs => (c :: g) :: gs

/-- Python `s.rsplit(sep, n)[0]` with separator `/` (line 100): the part
of `s` before the n-th slash from the right, or the first slash-separated
field when `s` holds at most `n` slashes. -/
def rsplitHead (s : String) (n : Nat) : String :=
  let parts := (splitChar '/' s.toList).map String.mk
  if parts.length ≤ n then parts.headD ""
  else String.intercalate "/" (parts.take (parts.length - n))

/-- First maximal digit run of `s`, as extracted on line 96 by
`re.findall` followed by indexing `[0]`; `none` models the IndexError the
indexing raises when the string holds no digit. -/
def firstDigitRun (s : String) : Option String :=
  let run := (s.toList.dropWhile (fun c => !c.isDigit)).takeWhile Char.isDigit
  if run.isEmpty then none else some (String.mk run)

/-- The image selector of a site rule: a literal class name for
`webtoonscan.com`, a compiled regular expression for `manhwa18.cc`. -/
inductive ImageSelector
  | cls (s : String)
  | pattern (s : String)
  deriving DecidableEq

/-- One entry of the static site table (lines 46-56). -/
structure SiteRule where
  chapter_class : String
  image_class : ImageSelector
  deriving DecidableEq

/-- The `webtoonscan.com` entry of the site table (lines 47-50). -/
def webtoonscanRule : SiteRule :=
  ⟨"wp-manga-chapter", ImageSelector.cls "wp-manga-chapter-img"⟩

/-- The `manhwa18.cc` entry of the site table (lines 53-56). -/
def manhwa18Rule : SiteRule :=
  ⟨"a-h wleft", ImageSelector.pattern "loading p\\d+"⟩

/-- The if/elif of the constructor, lines 46-56: `none` when neither
substring matches, in which case the Python constructor simply leaves
`self.database` unset - there is no else branch and no error raised. -/
def initDatabase (url : String) : Option SiteRule :=
  if containsSubstr "webtoonscan.com" url then some webtoonscanRule
  else if containsSubstr "manhwa18.cc" url then some manhwa18Rule
  else none

/-- The fields of the saver object that the pipeline reads.  The comic
name and save path only involve `slugify` and filesystem layout, which
every claim leaves to external collaborators, so they are not modelled. -/
structure SaverState where
  url : String
  database : Option SiteRule
  chapter_start : Option Int
  chapter_end : Option Int
  deriving DecidableEq

/-- Lines 73-78: the `chapter_range` bounds, then the `num_chapters`
override setting `start = 1, end = num_chapters`. -/
def resolveBounds (num_chapters rstart rend : Option Int) :
    Option Int × Option Int :=
  match num_chapters with
  | some n => (some 1, some n)
  | none => (rstart, rend)

/-- The constructor of `WebtoonSaver` (lines 21-78) restricted to the
modelled fields.  A `manhwa18.cc` URL gets a trailing slash appended
(line 52); the site table is consulted on the incoming URL. -/
def mkSaver (url : String) (num_chapters rstart rend : Option Int) :
    SaverState :=
  let url1 :=
    if containsSubstr "webtoonscan.com" url then url
    else if containsSubstr "manhwa18.cc" url then url ++ "/"
    else url
  let b := resolveBounds num_chapters rstart rend
  ⟨url1, initDatabase url, b.1, b.2⟩

/-- Python OrderedDict assignment `d[k] = v`: update in place when the
key exists (the insertion position is kept), append otherwise.  The index
is an association list in insertion order. -/
def odInsert (entries : List (String × String)) (k v : String) :
    List (String × String) :=
  if entries.any (fun p => p.1 == k) then
    entries.map (fun p => if p.1 == k then (k, v) else p)
  else entries ++ [(k, v)]

/-- The Python exceptions the modelled code can let escape. -/
inductive PyErr
  | indexError      -- list/regex-match indexing out of range
  | attributeError  -- `self.database` read while unset
  | connError       -- `requests.get` failure
  | clientError     -- aiohttp download failure
  deriving DecidableEq

/-- The loop of `getChapterURLs` (lines 92-100), one iteration per
matched chapter element, `href` being the href of its first anchor.  The
chapter id is the first digit run of the href (IndexError when there is
none); the stored URL is site dependent, and a saver URL matching neither
site inserts nothing (the if/elif has no else). -/
def buildEntries (url : String) (entries : List (String × String)) :
    List String → Except PyErr (List (String × String))
  | [] => Except.ok entries
  | href :: rest =>
    match firstDigitRun href with
    | none => Except.error PyErr.indexError
    | some cid =>
      let entries1 :=
        if containsSubstr "webtoonscan.com" url then odInsert entries cid href
        else if containsSubstr "manhwa18.cc" url then
          odInsert entries cid (rsplitHead url 3 ++ href)
        else entries
      buildEntries url entries1 rest

/-- The chapter identifiers of the index, as integers (line 108). -/
def idsOf (entries : List (String × String)) : List Int :=
  entries.map (fun p => strToInt p.1)

/-- Python `range(lo, hi + 1)` as a list of integers (line 107). -/
def intRange (lo hi : Int) : List Int :=
  (List.range (hi + 1 - lo).toNat).map (fun k => lo + k)

/-- The missing-chapter computation, lines 102-111.  `last_chapter` is
the id of the FIRST key of the index and `first_chapter` the id of the
LAST key, in discovery order; nothing is reported unless
`last_chapter - count` is positive.  The reported set is returned in
ascending order (Python prints an unordered set). -/
def codeMissingReport (entries : List (String × String)) :
    Option (Int × List Int) :=
  match entries with
  | [] => none
  | e :: rest =>
    let last_chapter : Int := strToInt e.1
    let first_chapter : Int := strToInt (List.getLastD rest e).1
    let missing : Int := last_chapter - ((e :: rest).length : Int)
    if 0 < missing then
      some (missing, (intRange first_chapter last_chapter).filter
        (fun i => !((idsOf (e :: rest)).contains i)))
    else none

/-- The same computation in the words of the claim: `max(identifiers) -
count`, the missing set drawn from `[min identifiers, max identifiers]`.
Kept solely for comparison with `codeMissingReport`. -/
def specMissingReport (entries : List (String × String)) :
    Option (Int × List Int) :=
  match entries with
  | [] => none
  | e :: rest =>
    let ids := idsOf (e :: rest)
    let mx := ids.foldl max (strToInt e.1)
    let mn := ids.foldl min (strToInt e.1)
    let missing := mx - ((e :: rest).length : Int)
    if 0 < missing then
      some (missing, (intRange mn mx).filter (fun i => !(ids.contains i)))
    else none

/-- Python truthiness of `self.chapter_start` and `self.chapter_end` on
lines 113 and 120: None and 0 are falsy, every other integer truthy. -/
def pyTruthy : Option Int → Bool
  | none => false
  | some n => n != 0

/-- Lines 113-125: the two truthiness-guarded inclusive range filters. -/
def rangeFilter (cstart cend : Option Int)
    (entries : List (String × String)) : List (String × String) :=
  let e1 :=
    if pyTruthy cstart then
      entries.filter (fun p => cstart.getD 0 ≤ strToInt p.1)
    else entries
  if pyTruthy cend then e1.filter (fun p => strToInt p.1 ≤ cend.getD 0)
  else e1

/-- The range filter in the words of the claim: each inclusive bound
applies whenever it is given, independent of its value.  Kept solely for
comparison with `rangeFilter`. -/
def rangeFilterSpec (cstart cend : Option Int)
    (entries : List (String × String)) : List (String × String) :=
  let e1 :=
    match cstart with
    | none => entries
    | some s => entries.filter (fun p => s ≤ strToInt p.1)
  match cend with
  | none => e1
  | some t => e1.filter (fun p => strToInt p.1 ≤ t)

/-- Result of a successful `getChapterURLs` call: the filtered index and
the missing-chapter report, if one was printed. -/
structure IndexResult where
  entries : List (String × String)
  report : Option (Int × List Int)
  deriving DecidableEq

/-- Equality of `Except` values is decidable when it is on both sides. -/
instance exceptDecEq {ε α : Type} [DecidableEq ε] [DecidableEq α] :
    DecidableEq (Except ε α) := fun a b =>
  match a, b with
  | Except.error x, Except.error y =>
    if h : x = y then Decidable.isTrue (congrArg Except.error h)
    else Decidable.isFalse (fun hh => h (Except.error.inj hh))
  | Except.ok x, Except.ok y =>
    if h : x = y then Decidable.isTrue (congrArg Except.ok h)
    else Decidable.isFalse (fun hh => h (Except.ok.inj hh))
  | Except.error _, Except.ok _ => Decidable.isFalse (fun hh => Except.noConfusion hh)
  | Except.ok _, Except.error _ => Decidable.isFalse (fun hh => Except.noConfusion hh)

/-- A `getChapterURLs` run: how many HTTP requests it made and its
result (`error` = an uncaught Python exception). -/
structure IndexRun where
  networkCalls : Nat
  result : Except PyErr IndexResult
  deriving DecidableEq

/-- `getChapterURLs` (lines 81-125).  `hrefs` are the chapter-link hrefs
of the fetched index page, in document order.  The index page is fetched
(one network call, line 88) before `self.database` is read on line 93, so
a saver built from an unmatched URL fails only after that call, with an
AttributeError; an empty key list fails on line 103, where the first key
of the empty OrderedDict is indexed, with an IndexError. -/
def getChapterURLs (st : SaverState) (hrefs : List String) : IndexRun :=
  match st.database with
  | none => ⟨1, Except.error PyErr.attributeError⟩
  | some _ =>
    match buildEntries st.url [] hrefs with
    | Except.error e => ⟨1, Except.error e⟩
    | Except.ok [] => ⟨1, Except.error PyErr.indexError⟩
    | Except.ok (e :: rest) =>
      ⟨1, Except.ok ⟨rangeFilter st.chapter_start st.chapter_end (e :: rest),
                     codeMissingReport (e :: rest)⟩⟩

/-- The `atoi` method (line 127): `int(text)` when the text is a
non-empty all-digit string, the text itself otherwise.  Digit runs become
`Sum.inr`, other runs `Sum.inl`. -/
def atoi (text : String) : String ⊕ Nat :=
  if text.length != 0 && text.toList.all Char.isDigit then Sum.inr (strToNat text)
  else Sum.inl text

/-- The split of line 149, a regular-expression split on the digit-run
group: alternating non-digit and digit runs, the non-digit runs at either
end possibly empty.  The fuel only bounds the recursion depth;
`length + 1` always suffices because each step past a digit run consumes
at least one character. -/
def splitDigitRuns : Nat → List Char → List (List Char)
  | 0, _ => []
  | fuel + 1, cs =>
    let nd := cs.takeWhile (fun c => !c.isDigit)
    match cs.dropWhile (fun c => !c.isDigit) with
    | [] => [nd]
    | r => nd :: r.takeWhile Char.isDigit ::
        splitDigitRuns fuel (r.dropWhile Char.isDigit)

/-- The `natural_keys` method (line 139). -/
def natural_keys (text : String) : List (String ⊕ Nat) :=
  (splitDigitRuns (text.length + 1) text.toList).map (fun cs => atoi (String.mk cs))

/-- Comparison of one key element, as the Python `<` used by list
comparison: numbers numerically, strings lexicographically.  Comparing a
number with a string raises in Python; it never arises between keys
compared positionally, because even positions are always strings and odd
positions always numbers. -/
def keyElemLt : (String ⊕ Nat) → (String ⊕ Nat) → Bool
  | Sum.inl a, Sum.inl b => decide (a < b)
  | Sum.inr a, Sum.inr b => decide (a < b)
  | _, _ => false

/-- Lexicographic comparison of two key lists, as Python compares the
lists returned by `natural_keys`; a strict prefix sorts first. -/
def keyListLt : List (String ⊕ Nat) → List (String ⊕ Nat) → Bool
  | [], [] => false
  | [], _ :: _ => true
  | _ :: _, [] => false
  | a :: as, b :: bs => if a = b then keyListLt as bs else keyElemLt a b

/-- One insertion step of the sort below: `x` goes after every element
whose key is strictly below its own, keeping the sort stable. -/
def insertByKeys (x : String) : List String → List String
  | [] => [x]
  | y :: ys =>
    if keyListLt (natural_keys y) (natural_keys x) then y :: insertByKeys x ys
    else x :: y :: ys

/-- Line 224, `alist.sort(key=self.natural_keys)`: a stable sort of the
filenames by their natural key. -/
def sortByNaturalKeys (l : List String) : List String :=
  l.foldr insertByKeys []

/-- Outcome of the HTTP GET for one image: the connection or body read
either fails, or yields a response carrying a status code and raw body
bytes.  `download_image` never looks at the status. -/
inductive HttpResult
  | connFail
  | resp (status : Nat) (body : List Nat)
  deriving DecidableEq

/-- One file written into the scratch directory of the chapter (the name
is relative to that directory). -/
structure FileWrite where
  name : String
  content : List Nat
  deriving DecidableEq

/-- `download_image` (lines 151-170): any response - whatever its status
code - has its raw body written to `images<idx+1>.jpg` and the index
returned as the success value; only a failing connection or read raises. -/
def download_image (res : HttpResult) (idx : Nat) :
    Option FileWrite × Except PyErr Nat :=
  match res with
  | HttpResult.connFail => (none, Except.error PyErr.clientError)
  | HttpResult.resp _ body =>
    (some ⟨"images" ++ toString (idx + 1) ++ ".jpg", body⟩, Except.ok idx)

/-- The task list of `download_images` joined by `asyncio.gather` WITHOUT
`return_exceptions=True` (line 188): every task still runs, so every
successful write happens, but the gathered value is the first exception
whenever any task raises, and the list of indices only when all succeed. -/
def gatherDownloads (idx : Nat) :
    List HttpResult → List FileWrite × Except PyErr (List Nat)
  | [] => ([], Except.ok [])
  | r :: rest =>
    let w1 := download_image r idx
    let ws := gatherDownloads (idx + 1) rest
    (w1.1.toList ++ ws.1,
     match w1.2, ws.2 with
     | Except.ok n, Except.ok ns => Except.ok (n :: ns)
     | Except.error e, _ => Except.error e
     | Except.ok _, Except.error e => Except.error e)

/-- `download_images` (lines 172-188), given the HTTP outcome of each
enumerated image URL. -/
def download_images (results : List HttpResult) :
    List FileWrite × Except PyErr (List Nat) :=
  gatherDownloads 0 results

/-- Outcome of opening a downloaded file with `Image.open`. -/
inductive PILResult
  | unidentified
  | img (height : Nat) (mode : String)
  deriving DecidableEq

/-- `load_image` (lines 229-237): a decode failure gives None (the
UnidentifiedImageError is caught), an image of height at most 500 falls
through to the implicit None, and a taller RGBA image is converted to
RGB.  The value kept for a page is its (height, mode) pair. -/
def load_image (r : PILResult) : Option (Nat × String) :=
  match r with
  | PILResult.unidentified => none
  | PILResult.img h m =>
    if 500 < h then some (h, if m = "RGBA" then "RGB" else m) else none

/-- The externally determined outcomes one `process_chapter` run can
observe: whether the artifact and the scratch directory pre-exist, the
result of fetching the chapter page (the img src attributes on success),
the HTTP outcome of the image request at each position, and the PIL
decoding of any byte payload. -/
structure ChapterEnv where
  pdfExists : Bool
  scratchExists : Bool
  fetchChapter : Except PyErr (List String)
  dl : Nat → HttpResult
  decode : List Nat → PILResult

/-- What a `process_chapter` run did: its result (`error` = an uncaught
Python exception), how many HTTP requests it issued, whether the scratch
directory exists when it ends, the image files it wrote, and the pages of
the artifact it saved - (height, mode) in page order - if it saved one. -/
structure RunOutcome where
  result : Except PyErr Unit
  networkCalls : Nat
  scratchAfter : Bool
  writes : List FileWrite
  artifact : Option (List (Nat × String))
  deriving DecidableEq

/-- The bytes of the scratch file named `n`. -/
def contentOf (writes : List FileWrite) (n : String) : Option (List Nat) :=
  (writes.find? (fun w => w.name == n)).map (fun w => w.content)

/-- `process_chapter` (lines 190-253).  The guard on line 205 skips the
whole body when the artifact file exists.  Otherwise the scratch
directory is recreated (delete then create), the chapter page fetched,
the image URLs stripped of whitespace and downloaded under
`asyncio.gather`, the scratch listing naturally sorted and filtered to
`.jpg` names, each file decoded and filtered by `load_image`, the
artifact saved when at least one page survives - and the scratch
directory removed on line 253.  That `rmtree` is NOT inside any
try/finally, so every uncaught exception (fetch, gather) leaves the
scratch directory behind. -/
def process_chapter (env : ChapterEnv) : RunOutcome :=
  if env.pdfExists then ⟨Except.ok (), 0, env.scratchExists, [], none⟩
  else
    match env.fetchChapter with
    | Except.error e => ⟨Except.error e, 1, true, [], none⟩
    | Except.ok srcs =>
      let image_urls := srcs.map stripWS
      let dlres := download_images ((List.range image_urls.length).map env.dl)
      match dlres.2 with
      | Except.error e => ⟨Except.error e, 1 + image_urls.length, true, dlres.1, none⟩
      | Except.ok _ =>
        let alist := sortByNaturalKeys (dlres.1.map (fun w => w.name))
        let imagelist := alist.filter (fun n => containsSubstr ".jpg" n)
        let im_list0 := imagelist.map (fun n =>
          (contentOf dlres.1 n).bind (fun b => load_image (env.decode b)))
        let im_list := im_list0.filterMap id
        ⟨Except.ok (), 1 + image_urls.length, false, dlres.1,
         if im_list.isEmpty then none else some im_list⟩

/-- A chapter with five image URLs whose downloads at positions 1 and 3
fail while the others succeed; the artifact does not exist yet. -/
def envFiveTwoFail : ChapterEnv :=
  ⟨false, false, Except.ok ["u1", "u2", "u3", "u4", "u5"],
   fun i => if i == 1 || i == 3 then HttpResult.connFail else HttpResult.resp 200 [i],
   fun _ => PILResult.img 600 "RGB"⟩

/-- A chapter whose artifact does not exist and whose chapter-page fetch
raises. -/
def envFetchRaises : ChapterEnv :=
  ⟨false, false, Except.error PyErr.connError,
   fun _ => HttpResult.connFail, fun _ => PILResult.unidentified⟩

/-- A chapter whose artifact already exists, with a scratch directory
left over from an interrupted earlier run. -/
def envDone : ChapterEnv :=
  ⟨true, true, Except.ok ["u1"],
   fun _ => HttpResult.resp 200 [7], fun _ => PILResult.img 600 "RGB"⟩

/-- Three downloaded files: one decodes at height 400, one at height 600,
one fails to decode. -/
def envHeights : ChapterEnv :=
  ⟨false, false, Except.ok ["a1", "a2", "a3"],
   fun i => HttpResult.resp 200 [i],
   fun b =>
     if b == [0] then PILResult.img 400 "RGB"
     else if b == [1] then PILResult.img 600 "RGB"
     else PILResult.unidentified⟩

/-- Chapter entries whose identifiers run from `lo` to `hi` in order. -/
def entriesIdRange (lo hi : Nat) : List (String × String) :=
  (List.range (hi + 1 - lo)).map (fun k => (toString (lo + k), "u"))

/-- A gathered download result only exists when every single download
succeeded: `asyncio.gather` without `return_exceptions=True` otherwise
raises instead of returning a shorter list. -/
theorem gatherDownloads_ok_length (rs : List HttpResult) :
    ∀ idx l, (gatherDownloads idx rs).2 = Except.ok l → l.length = rs.length := by
  induction rs with
  | nil =>
    intro idx l h
    simp only [gatherDownloads] at h
    cases h
    rfl
  | cons r rest ih =>
    intro idx l h
    cases r with
    | connFail =>
      simp [gatherDownloads, download_image] at h
    | resp s b =>
      simp only [gatherDownloads, download_image] at h
      cases hrec : (gatherDownloads (idx + 1) rest).2 with
      | error e => rw [hrec] at h; simp at h
      | ok ns =>
        rw [hrec] at h
        simp only [Except.ok.injEq] at h
        subst h
        simp [ih (idx + 1) ns hrec]

/-- C1: the claim states that a failed image download yields an absent
result while the other downloads proceed to assembly, the discrepancy
count being requested minus succeeded.  In the code, `asyncio.gather` is
called without `return_exceptions=True`: a gathered index list exists
only when EVERY download succeeded - so the discrepancy branch on line
218 can never observe a shortfall - and on a 5-URL chapter whose
downloads at positions 1 and 3 fail, the first exception propagates out
of `download_images`, `process_chapter` aborts, and no artifact is
assembled from the three successes. -/
theorem C1_single_failure_aborts_gather :
    (∀ idx rs l, (gatherDownloads idx rs).2 = Except.ok l → l.length = rs.length)
    ∧ (download_images ((List.range 5).map envFiveTwoFail.dl)).2
        = Except.error PyErr.clientError
    ∧ (process_chapter envFiveTwoFail).result = Except.error PyErr.clientError
    ∧ (process_chapter envFiveTwoFail).artifact = none := by
  refine ⟨fun idx rs l h => gatherDownloads_ok_length rs idx l h, ?_, ?_, ?_⟩ <;> decide

/-- C1 witness: the all-success instance of the gathered-length fact at a
concrete two-download input. -/
theorem C1_single_failure_aborts_gather_witness :
    ([0, 1] : List Nat).length
      = [HttpResult.resp 200 [], HttpResult.resp 200 [9]].length :=
  C1_single_failure_aborts_gather.1 0
    [HttpResult.resp 200 [], HttpResult.resp 200 [9]] [0, 1] (by decide)

/-- C2 counterexample: with the artifact absent and a chapter-page fetch
that raises, `process_chapter` propagates the exception and the scratch
directory - recreated just before the fetch - still exists afterwards,
contrary to the claim that cleanup runs on every exit path. -/
theorem C2_scratch_survives_fetch_exception :
    (process_chapter envFetchRaises).scratchAfter = true
    ∧ (process_chapter envFetchRaises).result = Except.error PyErr.connError := by
  exact ⟨by decide, by decide⟩

/-- C2 amended: on a chapter whose artifact does not yet exist, the
scratch directory is gone at the end of the run exactly when the run
raised no exception; on every raising exit path (chapter-page fetch or
download gather) it survives, because the final `rmtree` is not inside a
try/finally. -/
theorem C2_cleanup_iff_no_exception (env : ChapterEnv)
    (h : env.pdfExists = false) :
    (process_chapter env).scratchAfter = false ↔
      (process_chapter env).result = Except.ok () := by
  unfold process_chapter
  rw [h]
  simp only [Bool.false_eq_true, if_false]
  cases env.fetchChapter with
  | error e => simp
  | ok srcs =>
    simp only
    cases hdl : (download_images
        ((List.range ((srcs.map stripWS).length)).map env.dl)).2 with
    | error e => simp
    | ok idxs => simp

/-- C2 witness: the amended equivalence evaluated at the fetch-raising
chapter. -/
theorem C2_cleanup_iff_no_exception_witness :
    ((process_chapter envFetchRaises).scratchAfter = false ↔
      (process_chapter envFetchRaises).result = Except.ok ()) :=
  C2_cleanup_iff_no_exception envFetchRaises rfl

/-- C3: when the artifact file already exists, `process_chapter` returns
at once: no network call, no file write, no artifact recomputation, no
exception, and the scratch directory exactly as it was. -/
theorem C3_idempotency_gate (env : ChapterEnv) (h : env.pdfExists = true) :
    process_chapter env = ⟨Except.ok (), 0, env.scratchExists, [], none⟩ := by
  simp [process_chapter, h]

/-- C3 witness: the gate at a concrete already-processed chapter. -/
theorem C3_idempotency_gate_witness :
    process_chapter envDone = ⟨Except.ok (), 0, true, [], none⟩ :=
  C3_idempotency_gate envDone rfl

/-- C4 counterexample: the URL `https://example.com/comics/foo/` matches
no entry of the static table, yet construction succeeds - `database` is
simply never assigned, there being no else branch and no
UnsupportedSiteError anywhere in the program - and the failure surfaces
only inside `getChapterURLs`, as an AttributeError raised after the index
page has already been fetched (one network call). -/
theorem C4_no_rule_does_not_abort_construction :
    (mkSaver "https://example.com/comics/foo/" none none none).database = none
    ∧ getChapterURLs (mkSaver "https://example.com/comics/foo/" none none none)
        ["https://example.com/chapter-1/"]
      = ⟨1, Except.error PyErr.attributeError⟩ := by
  exact ⟨by decide, by decide⟩

/-- C4 amended: a URL matching no table entry does NOT make construction
fail - the saver is built with no rule recorded, and only the
chapter-index build fails, with an AttributeError, after the index page
has been fetched (one network call).  A URL matching exactly the
`webtoonscan.com` entry, or exactly the `manhwa18.cc` entry, yields that
entry into `database`. -/
theorem C4_rule_resolution (url : String) (n rs re : Option Int) :
    (containsSubstr "webtoonscan.com" url = false →
      containsSubstr "manhwa18.cc" url = false →
      (mkSaver url n rs re).database = none
      ∧ ∀ hrefs, getChapterURLs (mkSaver url n rs re) hrefs
          = ⟨1, Except.error PyErr.attributeError⟩)
    ∧ (containsSubstr "webtoonscan.com" url = true →
        containsSubstr "manhwa18.cc" url = false →
        (mkSaver url n rs re).database = some webtoonscanRule)
    ∧ (containsSubstr "webtoonscan.com" url = false →
        containsSubstr "manhwa18.cc" url = true →
        (mkSaver url n rs re).database = some manhwa18Rule) := by
  refine ⟨fun h1 h2 => ?_, fun h1 h2 => ?_, fun h1 h2 => ?_⟩
  · have hdb : (mkSaver url n rs re).database = none := by
      simp [mkSaver, initDatabase, h1, h2]
    refine ⟨hdb, fun hrefs => ?_⟩
    unfold getChapterURLs
    rw [hdb]
  · simp [mkSaver, initDatabase, h1]
  · simp [mkSaver, initDatabase, h1, h2]

/-- C4 witness: the three resolution outcomes at concrete URLs. -/
theorem C4_rule_resolution_witness :
    ((mkSaver "https://example.org/a/b/" none none none).database = none
      ∧ getChapterURLs (mkSaver "https://example.org/a/b/" none none none) []
          = ⟨1, Except.error PyErr.attributeError⟩)
    ∧ (mkSaver "https://webtoonscan.com/manhwa/solo/" none none none).database
        = some webtoonscanRule
    ∧ (mkSaver "https://manhwa18.cc/webtoon/x" none none none).database
        = some manhwa18Rule := by
  refine ⟨?_, ?_, ?_⟩
  · have h := (C4_rule_resolution "https://example.org/a/b/" none none none).1
      (by decide) (by decide)
    exact ⟨h.1, h.2 []⟩
  · exact (C4_rule_resolution "https://webtoonscan.com/manhwa/solo/" none none none).2.1
      (by decide) (by decide)
  · exact (C4_rule_resolution "https://manhwa18.cc/webtoon/x" none none none).2.2
      (by decide) (by decide)

/-- C5 counterexample: with a matched rule but zero chapter-link elements
extracted, `getChapterURLs` raises an IndexError - line 103 indexes the
first key of the empty OrderedDict - instead of returning an empty
mapping. -/
theorem C5_empty_index_raises :
    getChapterURLs (mkSaver "https://webtoonscan.com/manhwa/foo/" none none none) []
      = ⟨1, Except.error PyErr.indexError⟩ := by decide

/-- C5 amended: for every saver whose site rule resolved, an index page
with zero chapter-link elements makes the chapter-index build raise an
IndexError after the single index-page fetch; the empty mapping is never
produced. -/
theorem C5_empty_index_raises_general (st : SaverState) (db : SiteRule)
    (h : st.database = some db) :
    getChapterURLs st [] = ⟨1, Except.error PyErr.indexError⟩ := by
  unfold getChapterURLs
  rw [h]
  rfl

/-- C5 witness: the amended statement at a saver built for the other
supported site. -/
theorem C5_empty_index_raises_general_witness :
    getChapterURLs (mkSaver "https://manhwa18.cc/webtoon/bar" none none none) []
      = ⟨1, Except.error PyErr.indexError⟩ :=
  C5_empty_index_raises_general
    (mkSaver "https://manhwa18.cc/webtoon/bar" none none none) manhwa18Rule (by decide)

/-- C6 counterexample: identifiers discovered in ascending order `1, 3`.
The code computes `missing` from the FIRST key: `1 - 2 ≤ 0`, so nothing
is reported - also when run through the whole of `getChapterURLs` - while
the formula of the claim gives `max - count = 3 - 2 = 1 > 0` and demands
the report `{2}`. -/
theorem C6_ascending_order_breaks_gap_count :
    codeMissingReport [("1", "u"), ("3", "v")] = none
    ∧ specMissingReport [("1", "u"), ("3", "v")] = some (1, [2])
    ∧ (getChapterURLs (mkSaver "https://webtoonscan.com/manhwa/foo/" none none none)
        ["https://webtoonscan.com/chapter-1/", "https://webtoonscan.com/chapter-3/"]).result
      = Except.ok ⟨[("1", "https://webtoonscan.com/chapter-1/"),
                    ("3", "https://webtoonscan.com/chapter-3/")], none⟩ := by
  refine ⟨by decide, by decide, by decide⟩

/-- C6 amended: the gap computation uses the id of the FIRST discovered
key as the upper end and the id of the LAST discovered key as the lower
end: `missing = first-key-id - count`, reported set = ids of
`[last-key-id, first-key-id]` not present.  When discovery order is
descending - first key the maximum identifier, last key the minimum, as
on the supported sites - this coincides with `max(identifiers) - count`
over `[min, max]` as the claim states it. -/
theorem C6_gap_count_under_descending_order (e : String × String)
    (rest : List (String × String))
    (h1 : strToInt e.1 = (idsOf (e :: rest)).foldl max (strToInt e.1))
    (h2 : strToInt (List.getLastD rest e).1
        = (idsOf (e :: rest)).foldl min (strToInt e.1)) :
    codeMissingReport (e :: rest) = specMissingReport (e :: rest) := by
  simp only [codeMissingReport, specMissingReport]
  rw [← h1, ← h2]

/-- C6 witness: identifiers `5, 3, 1` discovered in descending order; the
code and the formula of the claim both report two missing chapters,
`{2, 4}`. -/
theorem C6_gap_count_under_descending_order_witness :
    codeMissingReport [("5", "a"), ("3", "b"), ("1", "c")]
      = specMissingReport [("5", "a"), ("3", "b"), ("1", "c")]
    ∧ codeMissingReport [("5", "a"), ("3", "b"), ("1", "c")] = some (2, [2, 4]) :=
  ⟨C6_gap_count_under_descending_order ("5", "a") [("3", "b"), ("1", "c")]
    (by decide) (by decide), by decide⟩

/-- C7 counterexample: the bounds are tested for Python truthiness, so a
given bound of `0` is ignored.  With `end = 0` given, the code keeps
every chapter where the inclusive filter of the claim (`id ≤ 0`) keeps
none; and `num_chapters = 0` stores `end = 0`, which the filter then
ignores, keeping every chapter with id at least 1 instead of none. -/
theorem C7_zero_bound_is_ignored :
    rangeFilter none (some 0) [("1", "u"), ("2", "v")] = [("1", "u"), ("2", "v")]
    ∧ rangeFilterSpec none (some 0) [("1", "u"), ("2", "v")] = []
    ∧ (mkSaver "https://webtoonscan.com/manhwa/foo/" (some 0)
        (some 5) (some 10)).chapter_end = some 0
    ∧ rangeFilter (some 1) (some 0) [("1", "u"), ("2", "v")]
        = [("1", "u"), ("2", "v")] := by
  refine ⟨by decide, by decide, by decide, by decide⟩

/-- C7 amended: each inclusive bound filters whenever it is given AND
nonzero - the code tests Python truthiness, so a zero bound acts as
absent - and under that proviso the filter agrees exactly with the
bound-when-given filter of the claim; `num_chapters = k` overrides any
explicit range with `start = 1, end = k`.  On identifiers 1..20, bounds
`start = 5, end = 10` keep exactly 5..10, and `num_chapters = 3` (bounds
1 and 3) keeps exactly 1..3. -/
theorem C7_range_filtering (cstart cend : Option Int)
    (entries : List (String × String))
    (h1 : cstart ≠ some 0) (h2 : cend ≠ some 0) :
    rangeFilter cstart cend entries = rangeFilterSpec cstart cend entries
    ∧ (∀ url k rs re, (mkSaver url (some k) rs re).chapter_start = some 1
        ∧ (mkSaver url (some k) rs re).chapter_end = some k)
    ∧ rangeFilter (some 5) (some 10) (entriesIdRange 1 20) = entriesIdRange 5 10
    ∧ rangeFilter (some 1) (some 3) (entriesIdRange 1 20) = entriesIdRange 1 3 := by
  refine ⟨?_, fun url k rs re => ⟨rfl, rfl⟩, by decide, by decide⟩
  unfold rangeFilter rangeFilterSpec
  cases cstart with
  | none =>
    cases cend with
    | none => rfl
    | some t =>
      have ht : t ≠ 0 := fun hh => h2 (by rw [hh])
      simp [pyTruthy, ht]
  | some s =>
    have hs : s ≠ 0 := fun hh => h1 (by rw [hh])
    cases cend with
    | none => simp [pyTruthy, hs]
    | some t =>
      have ht : t ≠ 0 := fun hh => h2 (by rw [hh])
      simp [pyTruthy, hs, ht]

/-- C7 witness: the agreement of the two filters at the concrete
`start = 5, end = 10` range over identifiers 1..20. -/
theorem C7_range_filtering_witness :
    rangeFilter (some 5) (some 10) (entriesIdRange 1 20)
      = rangeFilterSpec (some 5) (some 10) (entriesIdRange 1 20) :=
  (C7_range_filtering (some 5) (some 10) (entriesIdRange 1 20)
    (by decide) (by decide)).1

/-- C8: `natural_keys` splits a filename into alternating non-digit and
digit runs, digit runs as numbers; the induced list order compares digit
runs numerically and other runs lexically, putting `images2.jpg` strictly
before `images10.jpg`; and sorting the input list of the claim yields
exactly the stated order. -/
theorem C8_natural_sort :
    natural_keys "images2.jpg" = [Sum.inl "images", Sum.inr 2, Sum.inl ".jpg"]
    ∧ natural_keys "images10.jpg" = [Sum.inl "images", Sum.inr 10, Sum.inl ".jpg"]
    ∧ natural_keys "images1.jpg" = [Sum.inl "images", Sum.inr 1, Sum.inl ".jpg"]
    ∧ keyListLt (natural_keys "images2.jpg") (natural_keys "images10.jpg") = true
    ∧ sortByNaturalKeys ["images2.jpg", "images10.jpg", "images1.jpg"]
        = ["images1.jpg", "images2.jpg", "images10.jpg"] := by
  refine ⟨by decide, by decide, by decide, by decide, by decide⟩

/-- C9: a downloaded file contributes a page exactly when it decodes and
its height exceeds 500: height 400 is dropped, height 600 kept, an
undecodable file yields None with no exception, and on a chapter holding
exactly those three files `process_chapter` completes normally with the
single 600-high page as its artifact. -/
theorem C9_decode_and_height_filter :
    (∀ h m, (load_image (PILResult.img h m)).isSome = decide (500 < h))
    ∧ load_image (PILResult.img 400 "RGB") = none
    ∧ load_image (PILResult.img 600 "RGB") = some (600, "RGB")
    ∧ load_image PILResult.unidentified = none
    ∧ (process_chapter envHeights).artifact = some [(600, "RGB")]
    ∧ (process_chapter envHeights).result = Except.ok () := by
  refine ⟨fun h m => ?_, by decide, by decide, by decide, by decide, by decide⟩
  by_cases hh : 500 < h <;> simp [load_image, hh]

/-- C10: `download_image` never inspects the HTTP status: the raw body of
ANY response is written to `images<idx+1>.jpg` - an error-status body
included, to be excluded only later by the decode filter of the
assembler - with the index reported as a success, and only a failed
connection or read raises. -/
theorem C10_no_status_check (status : Nat) (body : List Nat) (idx : Nat) :
    download_image (HttpResult.resp status body) idx
      = (some ⟨"images" ++ toString (idx + 1) ++ ".jpg", body⟩, Except.ok idx)
    ∧ download_image HttpResult.connFail idx
      = (none, Except.error PyErr.clientError) :=
  ⟨rfl, rfl⟩
